import Mathlib

set_option maxRecDepth 100000

/-!
Shallow embedding of the interactive portfolio application
(src/App.tsx, src/types.ts, src/constants.ts) and proofs about its
Search Engine, Command Interpreter, Assistant Response Pipeline and
View/Navigation Controller.

Strings are Lean `String`s (a structure over `List Char`); the JavaScript
string primitives used by the source (`toLowerCase`, `trim`, `includes`)
are embedded as executable functions over the underlying character list,
with the same semantics on the ASCII data the program contains.
-/

/-- Embeds JavaScript `String.prototype.toLowerCase` (ASCII range, which is
all the source data uses): lowercase every character. -/
def lowerStr (s : String) : String := ⟨s.data.map Char.toLower⟩

/-- Whitespace test for `trimStr`, covering the whitespace characters that
occur in the program's inputs. -/
def isWs (c : Char) : Bool := c = ' ' || c = '\t' || c = '\n' || c = '\r'

/-- Embeds JavaScript `String.prototype.trim`: strip whitespace from both
ends. -/
def trimStr (s : String) : String :=
  ⟨((s.data.dropWhile isWs).reverse.dropWhile isWs).reverse⟩

/-- `prefixAt needle hay`: does `needle` occur at the start of `hay`? -/
def prefixAt : List Char → List Char → Bool
  | [], _ => true
  | _ :: _, [] => false
  | a :: as, b :: bs => a = b && prefixAt as bs

/-- `containsCh needle hay`: does `needle` occur contiguously anywhere in
`hay`? -/
def containsCh (needle : List Char) : List Char → Bool
  | [] => prefixAt needle []
  | b :: rest => prefixAt needle (b :: rest) || containsCh needle rest

/-- Embeds JavaScript `hay.includes(needle)`: contiguous substring test. -/
def strIncludes (hay needle : String) : Bool := containsCh needle.data hay.data

/-- The specification's notion "needle is a substring of hay": the
characters of `hay` decompose as prefix ++ needle ++ suffix. -/
def SubstrOf (needle hay : String) : Prop :=
  ∃ pre post : List Char, hay.data = pre ++ needle.data ++ post

theorem prefixAt_iff (n h : List Char) :
    prefixAt n h = true ↔ ∃ t, h = n ++ t := by
  induction n generalizing h with
  | nil => simp [prefixAt]
  | cons a as ih =>
    cases h with
    | nil => simp [prefixAt]
    | cons b bs =>
      simp only [prefixAt, Bool.and_eq_true, decide_eq_true_eq, ih,
        List.cons_append, List.cons.injEq]
      constructor
      · rintro ⟨rfl, t, rfl⟩
        exact ⟨t, rfl, rfl⟩
      · rintro ⟨t, rfl, rfl⟩
        exact ⟨rfl, t, rfl⟩

theorem containsCh_iff (n h : List Char) :
    containsCh n h = true ↔ ∃ pre post, h = pre ++ n ++ post := by
  induction h with
  | nil =>
    simp only [containsCh, prefixAt_iff]
    constructor
    · rintro ⟨t, ht⟩
      rcases List.append_eq_nil.mp ht.symm with ⟨rfl, rfl⟩
      exact ⟨[], [], rfl⟩
    · rintro ⟨pre, post, hp⟩
      rcases List.append_eq_nil.mp hp.symm with ⟨hp2, rfl⟩
      rcases List.append_eq_nil.mp hp2 with ⟨rfl, rfl⟩
      exact ⟨[], rfl⟩
  | cons b bs ih =>
    simp only [containsCh, Bool.or_eq_true, prefixAt_iff, ih]
    constructor
    · rintro (⟨t, ht⟩ | ⟨pre, post, hp⟩)
      · exact ⟨[], t, by simp [ht]⟩
      · exact ⟨b :: pre, post, by simp [hp]⟩
    · rintro ⟨pre, post, hp⟩
      cases pre with
      | nil => exact Or.inl ⟨post, by simpa using hp⟩
      | cons x xs =>
        rw [List.cons_append, List.cons_append] at hp
        injection hp with _ htail
        exact Or.inr ⟨xs, post, htail⟩

theorem strIncludes_iff (hay needle : String) :
    strIncludes hay needle = true ↔ SubstrOf needle hay := by
  unfold strIncludes SubstrOf
  exact containsCh_iff needle.data hay.data

/-! ## Data model (src/types.ts) -/

/-- `ViewState` enum from src/types.ts. -/
inductive ViewState where
  | PROFILE
  | PROJECTS
  | EDUCATION
  | SKILLS
  | TERMINAL
  | SEARCH
deriving DecidableEq

/-- `Project` interface from src/types.ts. -/
structure Project where
  title : String
  description : String
  tech : List String
  type : String
deriving DecidableEq

/-- `Education` interface from src/types.ts (`details` is optional). -/
structure Education where
  degree : String
  school : String
  year : String
  score : String
  details : Option (List String)
deriving DecidableEq

/-- A `SKILL_METRICS` entry from src/constants.ts. -/
structure SkillMetric where
  subject : String
  A : Nat
  fullMark : Nat
deriving DecidableEq

/-- `ChatMessage` interface from src/types.ts. The `role` field is the
string-literal union `'user' | 'model'`, embedded as a `String`. -/
structure ChatMessage where
  role : String
  text : String
  timestamp : Nat
deriving DecidableEq

/-! ## Content Store (src/constants.ts) -/

/-- The `RESUME_DATA` record's fields used by the components under proof. -/
structure ResumeData where
  name : String
  title : String
  email : String
  phone : String
  location : String
  summary : String

/-- `RESUME_DATA` from src/constants.ts. -/
def RESUME_DATA : ResumeData :=
  { name := "Anubhav Kumar"
  , title := "M.Tech | AI Researcher & Frontend Engineer"
  , email := "anubhavfarswal@gmail.com"
  , phone := "6398011321"
  , location := "New Delhi, Delhi, 110045, IN"
  , summary := "M.Tech candidate at Bennett University bridging Machine Learning research with Front-End development. I specialize in integrating complex Transformer models into responsive web interfaces, creating seamless, end-to-end applications that make advanced data intelligence accessible and user-friendly." }

/-- `PROJECTS` from src/constants.ts. -/
def PROJECTS : List Project :=
  [ { title := "High-Precision Textual Verification System"
    , type := "AI / BERT-Family Models"
    , description := "Designed a high-precision verification system leveraging BERT, ROBERTa, and DeBERTa for advanced text classification. Integrated these Transformer models into a responsive front-end interface, enabling real-time credibility assessment and seamless user interaction."
    , tech := ["BERT", "ROBERTa", "Python", "React", "ML"] }
  , { title := "End-to-End Neural Text Analytics Platform"
    , type := "Full Stack / Real-Time UI"
    , description := "Developed an end-to-end platform using BERT and ROBERTa for advanced text analytics. Engineered a real-time, responsive UI to visualize model insights, effectively bridging complex ML back ends with intuitive front-end design."
    , tech := ["Neural Networks", "Data Viz", "TypeScript", "UI/UX"] }
  , { title := "Cross-Platform Component Library"
    , type := "Frontend Infrastructure"
    , description := "Developed a library of reusable, responsive UI components optimized for high-volume data visualization. Built to ensure seamless performance across platforms, providing a consistent interface for complex analytical outputs."
    , tech := ["React", "Component Lib", "Performance", "Design System"] } ]

/-- `EDUCATION_HISTORY` from src/constants.ts. -/
def EDUCATION_HISTORY : List Education :=
  [ { degree := "Master of Technology (M.Tech)"
    , school := "Bennett University"
    , year := "08/2024 – Present"
    , score := "GPA: 7.74"
    , details := some
        [ "Specialization in Computer Science Engineering"
        , "Research focus: Neural Networks & Transformer Models"
        , "Advanced AI Algorithms & Implementation" ] }
  , { degree := "Master of Computer Applications"
    , school := "Chandigarh University"
    , year := "2022 – 2024"
    , score := "GPA: 6.91"
    , details := some
        [ "Core Computing & Software Architectures"
        , "Full Stack Development Methodologies"
        , "Cloud Computing & Database Systems" ] }
  , { degree := "B.Sc. in Computer Science (Honours)"
    , school := "Meerut college"
    , year := "2018 – 2021"
    , score := "GPA: 6.14"
    , details := some
        [ "Foundations of Computer Science"
        , "Data Structures & Algorithms Analysis"
        , "System Programming & OS Concepts" ] } ]

/-- `SKILL_METRICS` from src/constants.ts. -/
def SKILL_METRICS : List SkillMetric :=
  [ { subject := "Python (AI)", A := 95, fullMark := 100 }
  , { subject := "C++", A := 80, fullMark := 100 }
  , { subject := "Java", A := 75, fullMark := 100 }
  , { subject := "Node.js", A := 85, fullMark := 100 }
  , { subject := "JS / TS", A := 90, fullMark := 100 }
  , { subject := "React / Next", A := 92, fullMark := 100 }
  , { subject := "HTML / CSS", A := 95, fullMark := 100 }
  , { subject := "Dart", A := 70, fullMark := 100 }
  , { subject := "Git", A := 88, fullMark := 100 } ]

/-- `CORE_SKILLS` from src/constants.ts: `SKILL_METRICS.map(s => s.subject)`. -/
def CORE_SKILLS : List String := SKILL_METRICS.map (fun s => s.subject)

/-! ## Search Engine and View/Navigation Controller
(src/App.tsx lines 83-153: `searchQuery`/`searchResults` state,
`handleSearch`, `handleNavClick`) -/

/-- The `searchResults` state record: three filtered collections. -/
structure SearchResults where
  projects : List Project
  education : List Education
  skills : List SkillMetric
deriving DecidableEq

/-- Project filter predicate from `handleSearch` (App.tsx lines 124-128):
title, description, or any tech tag contains the lowercased query. -/
def projectMatches (lowerQuery : String) (p : Project) : Bool :=
  strIncludes (lowerStr p.title) lowerQuery ||
  strIncludes (lowerStr p.description) lowerQuery ||
  p.tech.any (fun t => strIncludes (lowerStr t) lowerQuery)

/-- Education filter predicate from `handleSearch` (App.tsx lines 130-134):
degree, school, or any detail string contains the lowercased query; a
missing `details` list contributes no match (`edu.details?.some(...)`). -/
def educationMatches (lowerQuery : String) (edu : Education) : Bool :=
  strIncludes (lowerStr edu.degree) lowerQuery ||
  strIncludes (lowerStr edu.school) lowerQuery ||
  (match edu.details with
   | some ds => ds.any (fun d => strIncludes (lowerStr d) lowerQuery)
   | none => false)

/-- Skill filter predicate from `handleSearch` (App.tsx lines 136-138):
the subject name contains the lowercased query. -/
def skillMatches (lowerQuery : String) (s : SkillMetric) : Bool :=
  strIncludes (lowerStr s.subject) lowerQuery

/-- The `projects` collection computed by `handleSearch` for query. -/
def searchProjects (query : String) : List Project :=
  PROJECTS.filter (projectMatches (lowerStr query))

/-- The `education` collection computed by `handleSearch` for query. -/
def searchEducation (query : String) : List Education :=
  EDUCATION_HISTORY.filter (educationMatches (lowerStr query))

/-- The `skills` collection computed by `handleSearch` for query. -/
def searchSkills (query : String) : List SkillMetric :=
  SKILL_METRICS.filter (skillMatches (lowerStr query))

/-- The navigation-relevant component state: `activeView`, `searchQuery`
and `searchResults` (App.tsx lines 75, 83-88). -/
structure AppState where
  activeView : ViewState
  searchQuery : String
  searchResults : SearchResults
deriving DecidableEq

/-- `handleSearch` (App.tsx lines 111-141) as a state transformer on the
typed query. Empty/whitespace-only query: store the query, drop back to
PROFILE when currently on SEARCH, and return early (results untouched).
Otherwise: force the SEARCH view and recompute all three collections. -/
def handleSearch (s : AppState) (query : String) : AppState :=
  let s1 := { s with searchQuery := query }
  if trimStr query = "" then
    if s1.activeView = ViewState.SEARCH then
      { s1 with activeView := ViewState.PROFILE }
    else s1
  else
    let s2 :=
      if s1.activeView ≠ ViewState.SEARCH then
        { s1 with activeView := ViewState.SEARCH }
      else s1
    { s2 with searchResults :=
        { projects := searchProjects query
        , education := searchEducation query
        , skills := searchSkills query } }

/-- `handleNavClick` (App.tsx lines 149-153): no-op when the clicked view
is already active, otherwise switch the view and clear the query. -/
def handleNavClick (s : AppState) (view : ViewState) : AppState :=
  if view = s.activeView then s
  else { s with activeView := view, searchQuery := "" }

/-! ## Command Interpreter (src/App.tsx lines 1186-1226, `handleCommand`
inside `TerminalView`) -/

/-- Output lines of the `help` command. -/
def helpLines : List String :=
  [ "AVAILABLE COMMANDS:"
  , "  ls        - List all projects"
  , "  whoami    - Display profile summary"
  , "  skills    - List core competencies"
  , "  contact   - Display contact info"
  , "  clear     - Clear terminal" ]

/-- Output lines of the `ls` command after its header:
one line per project, `PROJECTS.forEach((p, i) => ...)`. -/
def lsLines : List String :=
  PROJECTS.enum.map
    (fun ip => "  [" ++ toString ip.1 ++ "] " ++ ip.2.title ++ " (" ++ ip.2.type ++ ")")

/-- Output lines of the `whoami` command. -/
def whoamiLines : List String :=
  [ "USER: " ++ RESUME_DATA.name
  , "TITLE: " ++ RESUME_DATA.title
  , "BIO: " ++ RESUME_DATA.summary ]

/-- Output lines of the `contact` command. -/
def contactLines : List String :=
  [ "EMAIL: " ++ RESUME_DATA.email
  , "PHONE: " ++ RESUME_DATA.phone
  , "LOC: " ++ RESUME_DATA.location ]

/-- The initial terminal scrollback (App.tsx line 1176). -/
def initialTerminalHistory : List String :=
  ["> SYSTEM INITIALIZED", "> WELCOME TO NEURAL CLI V1.0", "> TYPE \"help\" FOR COMMANDS"]

/-- `handleCommand` (App.tsx lines 1186-1226) as a function from the
current scrollback and the raw input line to the next scrollback. The
dispatch key is the trimmed, lowercased input; the echo line `> ${input}`
is the verbatim raw input. The `clear` branch replaces the whole history
with the single reset marker (discarding the echo) via its early return. -/
def handleCommand (history : List String) (inputText : String) : List String :=
  let cmd := lowerStr (trimStr inputText)
  let newHistory := history ++ ["> " ++ inputText]
  if cmd = "help" then newHistory ++ helpLines
  else if cmd = "ls" then newHistory ++ ("PROJECTS DIRECTORY:" :: lsLines)
  else if cmd = "whoami" then newHistory ++ whoamiLines
  else if cmd = "skills" then
    newHistory ++ ("CORE SKILLS:" :: CORE_SKILLS.map (fun s => "  - " ++ s))
  else if cmd = "contact" then newHistory ++ contactLines
  else if cmd = "clear" then ["> CONSOLE CLEARED"]
  else newHistory ++ ["ERROR: Command \"" ++ cmd ++ "\" not recognized. Type \"help\"."]

/-! ## Assistant Response Pipeline (src/App.tsx lines 1586-1712,
`getSimulationResponse` and `handleSend` inside the assistant widget) -/

/-- `getSimulationResponse` (App.tsx lines 1586-1597): deterministic
keyword classifier over the lowercased input. The initial `reply`
assignment in the source is dead: every branch of the if/else-if chain,
including the final `else`, reassigns `reply`. -/
def getSimulationResponse (query : String) : String :=
  let lowerInput := lowerStr query
  if strIncludes lowerInput "project" then
    "Anubhav has worked on key projects like the High-Precision Textual Verification System using BERT/RoBERTa and a Cross-Platform Component Library."
  else if strIncludes lowerInput "skill" || strIncludes lowerInput "tech" then
    "Core competencies include Python (AI), React, Node.js, and Transformer models (BERT, RoBERTa)."
  else if strIncludes lowerInput "contact" || strIncludes lowerInput "email" then
    "You can reach Anubhav at " ++ RESUME_DATA.email ++ "."
  else if strIncludes lowerInput "hello" || strIncludes lowerInput "hi" then
    "Greetings. Accessing local database..."
  else
    "I am currently running in offline mode. I can answer basic questions about projects and skills, but live generative capabilities are disabled."

/-- Outcome of the live `model.generateContent` call in `handleSend`:
either the awaited call throws (`error`), or it returns and
`response.response?.text()` yields `none` (undefined) or a string. -/
inductive ApiResult where
  | error
  | ok (text : Option String)
deriving DecidableEq

/-- The message body produced by the online branch of `handleSend`
(App.tsx lines 1686-1707): on a returned response,
`response.response?.text() || "Data corrupted. Please retry."` (the
fallback fires on undefined or empty text); on a thrown error, the catch
block substitutes `getSimulationResponse(input)` for the same input (the
local `input` binding is unchanged by `setInput('')`). -/
def onlineReply (r : ApiResult) (inputText : String) : String :=
  match r with
  | ApiResult.ok (some s) => if s = "" then "Data corrupted. Please retry." else s
  | ApiResult.ok none => "Data corrupted. Please retry."
  | ApiResult.error => getSimulationResponse inputText

/-- Result of one `handleSend` invocation: the next message history and
whether the external generative endpoint was invoked. -/
structure SendResult where
  messages : List ChatMessage
  apiCalled : Bool
deriving DecidableEq

/-- `handleSend` (App.tsx lines 1668-1712). Guard: blank input or an
in-flight send is a no-op. Otherwise the user message is appended, then:
in offline mode (`apiKey === 'demo_key'`) the simulation reply is
appended after a timeout without touching the network; in online mode the
API is called and `onlineReply` gives the appended body. `tUser`/`tReply`
are the `Date.now()` values at the two message creations. -/
def handleSend (msgs : List ChatMessage) (inputText : String) (loading : Bool)
    (offline : Bool) (r : ApiResult) (tUser tReply : Nat) : SendResult :=
  if trimStr inputText = "" || loading then ⟨msgs, false⟩
  else
    let userMsg : ChatMessage := ⟨"user", inputText, tUser⟩
    let withUser := msgs ++ [userMsg]
    if offline then
      ⟨withUser ++ [⟨"model", getSimulationResponse inputText, tReply⟩], false⟩
    else
      ⟨withUser ++ [⟨"model", onlineReply r inputText, tReply⟩], true⟩

/-! ## The specification's searchable fields and matching rule -/

/-- Searchable fields of a project per the spec: title, description, and
the technology tags. -/
def projectFields (p : Project) : List String := p.title :: p.description :: p.tech

/-- Searchable fields of an education entry per the spec: degree, school,
and the detail strings. -/
def educationFields (e : Education) : List String :=
  e.degree :: e.school :: e.details.getD []

/-- Searchable field of a skill per the spec: its subject name. -/
def skillFields (m : SkillMetric) : List String := [m.subject]

/-- The spec's matching rule: the lowercased query is a substring of at
least one of the entity's searchable fields, lowercased. -/
def specMatch (query : String) (fields : List String) : Prop :=
  ∃ f ∈ fields, SubstrOf (lowerStr query) (lowerStr f)

theorem projectMatches_iff (q : String) (p : Project) :
    projectMatches (lowerStr q) p = true ↔ specMatch q (projectFields p) := by
  simp only [projectMatches, Bool.or_eq_true, List.any_eq_true, strIncludes_iff,
    specMatch, projectFields, List.mem_cons]
  constructor
  · rintro ((h | h) | ⟨t, ht, h⟩)
    · exact ⟨p.title, Or.inl rfl, h⟩
    · exact ⟨p.description, Or.inr (Or.inl rfl), h⟩
    · exact ⟨t, Or.inr (Or.inr ht), h⟩
  · rintro ⟨f, (rfl | rfl | hf), h⟩
    · exact Or.inl (Or.inl h)
    · exact Or.inl (Or.inr h)
    · exact Or.inr ⟨f, hf, h⟩

theorem educationMatches_iff (q : String) (e : Education) :
    educationMatches (lowerStr q) e = true ↔ specMatch q (educationFields e) := by
  unfold educationMatches educationFields specMatch
  cases hd : e.details with
  | none =>
    simp only [hd, Option.getD_none, Bool.or_eq_true, strIncludes_iff, List.mem_cons,
      List.not_mem_nil, or_false]
    constructor
    · rintro ((h | h) | h)
      · exact ⟨e.degree, Or.inl rfl, h⟩
      · exact ⟨e.school, Or.inr rfl, h⟩
      · exact absurd h (by simp)
    · rintro ⟨f, (rfl | rfl), h⟩
      · exact Or.inl (Or.inl h)
      · exact Or.inl (Or.inr h)
  | some ds =>
    simp only [hd, Option.getD_some, Bool.or_eq_true, List.any_eq_true, strIncludes_iff,
      List.mem_cons]
    constructor
    · rintro ((h | h) | ⟨d, hdm, h⟩)
      · exact ⟨e.degree, Or.inl rfl, h⟩
      · exact ⟨e.school, Or.inr (Or.inl rfl), h⟩
      · exact ⟨d, Or.inr (Or.inr hdm), h⟩
    · rintro ⟨f, (rfl | rfl | hf), h⟩
      · exact Or.inl (Or.inl h)
      · exact Or.inl (Or.inr h)
      · exact Or.inr ⟨f, hf, h⟩

theorem skillMatches_iff (q : String) (m : SkillMetric) :
    skillMatches (lowerStr q) m = true ↔ specMatch q (skillFields m) := by
  simp only [skillMatches, strIncludes_iff, specMatch, skillFields, List.mem_singleton]
  constructor
  · intro h
    exact ⟨m.subject, rfl, h⟩
  · rintro ⟨f, rfl, h⟩
    exact h

/-! ## Claims -/

/-- C1: for every query string q and every entity e in the Content Store
(projects, education entries, skill metrics), e appears in the result set
of search(q) iff the lowercased q is a substring of at least one of e's
searchable fields, lowercased: for a project its title, description, or
any technology tag; for an education entry its degree, school, or any
detail string; for a skill its subject name. -/
theorem claim1_search_membership (q : String) :
    (∀ p : Project, p ∈ PROJECTS →
      (p ∈ searchProjects q ↔ specMatch q (projectFields p))) ∧
    (∀ e : Education, e ∈ EDUCATION_HISTORY →
      (e ∈ searchEducation q ↔ specMatch q (educationFields e))) ∧
    (∀ m : SkillMetric, m ∈ SKILL_METRICS →
      (m ∈ searchSkills q ↔ specMatch q (skillFields m))) := by
  refine ⟨fun p hp => ?_, fun e he => ?_, fun m hm => ?_⟩
  · rw [searchProjects, List.mem_filter]
    exact ⟨fun h => (projectMatches_iff q p).mp h.2,
      fun h => ⟨hp, (projectMatches_iff q p).mpr h⟩⟩
  · rw [searchEducation, List.mem_filter]
    exact ⟨fun h => (educationMatches_iff q e).mp h.2,
      fun h => ⟨he, (educationMatches_iff q e).mpr h⟩⟩
  · rw [searchSkills, List.mem_filter]
    exact ⟨fun h => (skillMatches_iff q m).mp h.2,
      fun h => ⟨hm, (skillMatches_iff q m).mpr h⟩⟩

/-- Witness for C1: the Java skill metric is in the store, and its
membership in the results for query "java" is equivalent to the spec's
substring rule on its subject. -/
theorem claim1_search_membership_witness :
    ({ subject := "Java", A := 75, fullMark := 100 } : SkillMetric) ∈ SKILL_METRICS ∧
    (({ subject := "Java", A := 75, fullMark := 100 } : SkillMetric) ∈ searchSkills "java" ↔
      specMatch "java" (skillFields { subject := "Java", A := 75, fullMark := 100 })) :=
  ⟨by decide, (claim1_search_membership "java").2.2 _ (by decide)⟩

/-- C2 counterexample: an online call that returns successfully but with
empty text does not fall back to the offline responder — the appended
body is the fixed string "Data corrupted. Please retry.", which differs
from `getSimulationResponse` on the same input "project". -/
theorem claim2_empty_text_counterexample :
    (handleSend [] "project" false false (ApiResult.ok (some "")) 0 1).messages =
      [⟨"user", "project", 0⟩, ⟨"model", "Data corrupted. Please retry.", 1⟩] ∧
    getSimulationResponse "project" ≠ "Data corrupted. Please retry." := by
  refine ⟨by decide, ?_⟩
  decide

/-- C2 (amended): when the awaited online call throws (network error or
malformed response raising an exception), the appended message body
equals exactly what the offline responder `getSimulationResponse` would
produce for the same input, and the pipeline still returns a normal
message history (no error propagates). An online call that returns with
empty or missing text instead appends the fixed string
"Data corrupted. Please retry.". -/
theorem claim2_error_fallback (msgs : List ChatMessage) (inputText : String)
    (tUser tReply : Nat) (h : trimStr inputText ≠ "") :
    (handleSend msgs inputText false false ApiResult.error tUser tReply).messages =
      msgs ++ [⟨"user", inputText, tUser⟩,
        ⟨"model", getSimulationResponse inputText, tReply⟩] := by
  simp [handleSend, onlineReply, h]

/-- Witness for C2 (amended) at input "hello". -/
theorem claim2_error_fallback_witness :
    trimStr "hello" ≠ "" ∧
    (handleSend [] "hello" false false ApiResult.error 0 1).messages =
      [] ++ [⟨"user", "hello", 0⟩, ⟨"model", getSimulationResponse "hello", 1⟩] :=
  ⟨by decide, claim2_error_fallback [] "hello" 0 1 (by decide)⟩

/-- C3 counterexample: the role label on an appended assistant reply is
the string-literal "model" (per `ChatMessage` in src/types.ts and every
`setMessages` call in `handleSend`), not "assistant". -/
theorem claim3_role_counterexample :
    ((handleSend [] "hello" false true ApiResult.error 0 1).messages.map
      (fun msg => msg.role)) = ["user", "model"] ∧
    ("model" : String) ≠ "assistant" := by
  refine ⟨by decide, by decide⟩

/-- C3 (amended): every assistant response, in both the offline and the
online branch, is wrapped into a `ChatMessage` whose role field is
"model" (the code's label for the assistant role) with the
reply-creation timestamp, and is appended to the end of the message
history after the user's message, without replacing, removing, or
reordering any existing message. -/
theorem claim3_reply_appended (msgs : List ChatMessage) (inputText : String)
    (offline : Bool) (r : ApiResult) (tUser tReply : Nat)
    (h : trimStr inputText ≠ "") :
    ∃ body : String,
      (handleSend msgs inputText false offline r tUser tReply).messages =
        msgs ++ [⟨"user", inputText, tUser⟩, ⟨"model", body, tReply⟩] := by
  cases offline with
  | true => exact ⟨getSimulationResponse inputText, by simp [handleSend, h]⟩
  | false => exact ⟨onlineReply r inputText, by simp [handleSend, h]⟩

/-- Witness for C3 (amended) at input "hi", offline, on an empty prior
history. -/
theorem claim3_reply_appended_witness :
    trimStr "hi" ≠ "" ∧
    ∃ body : String,
      (handleSend [] "hi" false true ApiResult.error 0 1).messages =
        [] ++ [⟨"user", "hi", 0⟩, ⟨"model", body, 1⟩] :=
  ⟨by decide, claim3_reply_appended [] "hi" true ApiResult.error 0 1 (by decide)⟩

/-- C4 counterexample: on the initial 3-line scrollback, "ls" grows the
history to 8 lines — it appends PROJECTS.length + 2 lines (the echo, the
"PROJECTS DIRECTORY:" header, and one line per project), not
PROJECTS.length + 1. -/
theorem claim4_ls_count_counterexample :
    initialTerminalHistory.length = 3 ∧
    PROJECTS.length = 3 ∧
    (handleCommand initialTerminalHistory "ls").length = 8 ∧
    (8 : Nat) ≠ 3 + (3 + 1) := by
  refine ⟨by decide, by decide, by decide, by decide⟩

/-- C4 (amended): for every prior history, executing the terminal command
"ls" (any case, surrounding whitespace allowed) appends exactly
len(PROJECTS) + 2 lines to the scrollback history: the echoed input, the
directory header, and one line per project. -/
theorem claim4_ls_appends (history : List String) (inputText : String)
    (h : lowerStr (trimStr inputText) = "ls") :
    (handleCommand history inputText).length =
      history.length + (PROJECTS.length + 2) := by
  have hls : lsLines.length = PROJECTS.length := by decide
  simp [handleCommand, h, hls]

/-- Witness for C4 (amended): " LS " on the empty scrollback. -/
theorem claim4_ls_appends_witness :
    lowerStr (trimStr " LS ") = "ls" ∧
    (handleCommand [] " LS ").length = ([] : List String).length + (PROJECTS.length + 2) :=
  ⟨by decide, claim4_ls_appends [] " LS " (by decide)⟩

/-- C5 counterexample: the input "clear" replaces the whole scrollback
with the single reset marker; the resulting history neither extends the
previous history nor starts with the echo line "> clear". -/
theorem claim5_clear_counterexample :
    handleCommand ["> SYSTEM INITIALIZED"] "clear" = ["> CONSOLE CLEARED"] ∧
    (handleCommand ["> SYSTEM INITIALIZED"] "clear").take 2 ≠
      ["> SYSTEM INITIALIZED", "> clear"] := by
  refine ⟨by decide, by decide⟩

/-- C5 (amended): for every input line whose trimmed, lowercased form is
not "clear", whether the command is recognized or not, the verbatim
echoed input line is appended to the history before any output lines, so
the resulting history extends the previous history with the echo line
first. The "clear" command instead replaces the history with the single
reset marker. -/
theorem claim5_echo_first (history : List String) (inputText : String)
    (h : lowerStr (trimStr inputText) ≠ "clear") :
    ∃ out : List String,
      handleCommand history inputText = history ++ ("> " ++ inputText) :: out := by
  unfold handleCommand
  dsimp only
  split
  · exact ⟨helpLines, by simp⟩
  · split
    · exact ⟨"PROJECTS DIRECTORY:" :: lsLines, by simp⟩
    · split
      · exact ⟨whoamiLines, by simp⟩
      · split
        · exact ⟨"CORE SKILLS:" :: CORE_SKILLS.map (fun s => "  - " ++ s), by simp⟩
        · split
          · exact ⟨contactLines, by simp⟩
          · exact ⟨["ERROR: Command \"" ++ lowerStr (trimStr inputText) ++
              "\" not recognized. Type \"help\"."], by simp⟩

/-- Witness for C5 (amended): the recognized command "help" on the
initial scrollback. -/
theorem claim5_echo_first_witness :
    lowerStr (trimStr "help") ≠ "clear" ∧
    ∃ out : List String,
      handleCommand initialTerminalHistory "help" =
        initialTerminalHistory ++ ("> " ++ "help") :: out :=
  ⟨by decide, claim5_echo_first initialTerminalHistory "help" (by decide)⟩

/-- C6: the search/navigation coupling. After typing any non-empty
(non-whitespace-only) query the active view equals SEARCH; after
subsequently clearing the query via the search input (empty string) the
active view equals PROFILE; and after a nav-button click during an
active search the search query is cleared and the active view equals the
clicked target. The nav buttons (App.tsx lines 279-304) target only
PROFILE, PROJECTS, EDUCATION, SKILLS and TERMINAL, never SEARCH, hence
the `v ≠ SEARCH` hypothesis on the third part. -/
theorem claim6_nav_search_coupling (s : AppState) (q : String) (v : ViewState) :
    (trimStr q ≠ "" → (handleSearch s q).activeView = ViewState.SEARCH) ∧
    (trimStr q ≠ "" →
      (handleSearch (handleSearch s q) "").activeView = ViewState.PROFILE) ∧
    (s.activeView = ViewState.SEARCH → trimStr s.searchQuery ≠ "" →
      v ≠ ViewState.SEARCH →
      (handleNavClick s v).searchQuery = "" ∧ (handleNavClick s v).activeView = v) := by
  have hview : ∀ hq : trimStr q ≠ "",
      (handleSearch s q).activeView = ViewState.SEARCH := by
    intro hq
    by_cases hv : s.activeView = ViewState.SEARCH <;>
      simp [handleSearch, hq, hv]
  refine ⟨hview, fun hq => ?_, fun hs hq hv => ?_⟩
  · have h2 := hview hq
    generalize hgen : handleSearch s q = s2 at h2
    have ht : trimStr "" = "" := by decide
    simp [handleSearch, ht, h2]
  · have hne : v ≠ s.activeView := by
      rw [hs]
      exact hv
    simp [handleNavClick, hne]

/-- Witness for C6 on a concrete SEARCH-view state with query "ai" and a
nav click on PROJECTS. -/
theorem claim6_nav_search_coupling_witness :
    trimStr "ai" ≠ "" ∧
    (handleSearch (⟨ViewState.SEARCH, "ai", ⟨[], [], []⟩⟩ : AppState) "ai").activeView =
      ViewState.SEARCH ∧
    (handleSearch (handleSearch (⟨ViewState.SEARCH, "ai", ⟨[], [], []⟩⟩ : AppState) "ai")
      "").activeView = ViewState.PROFILE ∧
    (handleNavClick (⟨ViewState.SEARCH, "ai", ⟨[], [], []⟩⟩ : AppState)
      ViewState.PROJECTS).searchQuery = "" ∧
    (handleNavClick (⟨ViewState.SEARCH, "ai", ⟨[], [], []⟩⟩ : AppState)
      ViewState.PROJECTS).activeView = ViewState.PROJECTS := by
  have h := claim6_nav_search_coupling
    ⟨ViewState.SEARCH, "ai", ⟨[], [], []⟩⟩ "ai" ViewState.PROJECTS
  exact ⟨by decide, h.1 (by decide), h.2.1 (by decide),
    (h.2.2 rfl (by decide) (by decide)).1, (h.2.2 rfl (by decide) (by decide)).2⟩

/-- C7: in offline mode (`apiKey === 'demo_key'`), for every user input
containing the substring "project" in any letter case at any position,
`handleSend` deterministically appends the one fixed projects-summary
reply — independently of any API outcome `r` — and no network request is
attempted (`apiCalled = false`). -/
theorem claim7_offline_project_reply (inputText : String) (msgs : List ChatMessage)
    (r : ApiResult) (tUser tReply : Nat)
    (hp : strIncludes (lowerStr inputText) "project" = true)
    (hne : trimStr inputText ≠ "") :
    (handleSend msgs inputText false true r tUser tReply).messages =
      msgs ++ [⟨"user", inputText, tUser⟩,
        ⟨"model", "Anubhav has worked on key projects like the High-Precision Textual Verification System using BERT/RoBERTa and a Cross-Platform Component Library.", tReply⟩] ∧
    (handleSend msgs inputText false true r tUser tReply).apiCalled = false := by
  constructor
  · simp [handleSend, getSimulationResponse, hp, hne]
  · simp [handleSend, hne]

/-- Witness for C7 at the input "Show me your PROJECTS" (uppercase, mid
sentence) on the empty history, with a would-be API error outcome. -/
theorem claim7_offline_project_reply_witness :
    strIncludes (lowerStr "Show me your PROJECTS") "project" = true ∧
    trimStr "Show me your PROJECTS" ≠ "" ∧
    (handleSend [] "Show me your PROJECTS" false true ApiResult.error 0 1).messages =
      [] ++ [⟨"user", "Show me your PROJECTS", 0⟩,
        ⟨"model", "Anubhav has worked on key projects like the High-Precision Textual Verification System using BERT/RoBERTa and a Cross-Platform Component Library.", 1⟩] ∧
    (handleSend [] "Show me your PROJECTS" false true ApiResult.error 0 1).apiCalled = false :=
  ⟨by decide, by decide,
    (claim7_offline_project_reply "Show me your PROJECTS" [] ApiResult.error 0 1
      (by decide) (by decide)).1,
    (claim7_offline_project_reply "Show me your PROJECTS" [] ApiResult.error 0 1
      (by decide) (by decide)).2⟩

/-- C8: for every query, each of the three result sequences is an
order-preserving subsequence (sublist) of the corresponding Content
Store list: search is a stable filter, not a relevance ranking. -/
theorem claim8_stable_filter (q : String) :
    (searchProjects q).Sublist PROJECTS ∧
    (searchEducation q).Sublist EDUCATION_HISTORY ∧
    (searchSkills q).Sublist SKILL_METRICS := by
  refine ⟨?_, ?_, ?_⟩
  · unfold searchProjects
    exact List.filter_sublist _
  · unfold searchEducation
    exact List.filter_sublist _
  · unfold searchSkills
    exact List.filter_sublist _

/-- C9: the offline responder's keyword checks are prioritized in a
fixed order. If the lowercased input contains "project", the projects
reply is returned regardless of any other keyword it also contains;
otherwise "skill"/"tech" take precedence over "contact"/"email", which
take precedence over "hello"/"hi"; an input matching none of the
keywords yields the one generic offline-mode fallback reply. -/
theorem claim9_keyword_priority (s : String) :
    (strIncludes (lowerStr s) "project" = true →
      getSimulationResponse s =
        "Anubhav has worked on key projects like the High-Precision Textual Verification System using BERT/RoBERTa and a Cross-Platform Component Library.") ∧
    (strIncludes (lowerStr s) "project" = false →
      (strIncludes (lowerStr s) "skill" || strIncludes (lowerStr s) "tech") = true →
      getSimulationResponse s =
        "Core competencies include Python (AI), React, Node.js, and Transformer models (BERT, RoBERTa).") ∧
    (strIncludes (lowerStr s) "project" = false →
      (strIncludes (lowerStr s) "skill" || strIncludes (lowerStr s) "tech") = false →
      (strIncludes (lowerStr s) "contact" || strIncludes (lowerStr s) "email") = true →
      getSimulationResponse s = "You can reach Anubhav at " ++ RESUME_DATA.email ++ ".") ∧
    (strIncludes (lowerStr s) "project" = false →
      (strIncludes (lowerStr s) "skill" || strIncludes (lowerStr s) "tech") = false →
      (strIncludes (lowerStr s) "contact" || strIncludes (lowerStr s) "email") = false →
      (strIncludes (lowerStr s) "hello" || strIncludes (lowerStr s) "hi") = true →
      getSimulationResponse s = "Greetings. Accessing local database...") ∧
    (strIncludes (lowerStr s) "project" = false →
      (strIncludes (lowerStr s) "skill" || strIncludes (lowerStr s) "tech") = false →
      (strIncludes (lowerStr s) "contact" || strIncludes (lowerStr s) "email") = false →
      (strIncludes (lowerStr s) "hello" || strIncludes (lowerStr s) "hi") = false →
      getSimulationResponse s =
        "I am currently running in offline mode. I can answer basic questions about projects and skills, but live generative capabilities are disabled.") := by
  refine ⟨fun h1 => ?_, fun h1 h2 => ?_, fun h1 h2 h3 => ?_,
    fun h1 h2 h3 h4 => ?_, fun h1 h2 h3 h4 => ?_⟩ <;>
    simp [getSimulationResponse, h1, *]

/-- Witness for C9: one concrete input per priority level, including an
input carrying every keyword at once, which still gets the projects
reply. -/
theorem claim9_keyword_priority_witness :
    getSimulationResponse "project skill tech contact email hello hi" =
      "Anubhav has worked on key projects like the High-Precision Textual Verification System using BERT/RoBERTa and a Cross-Platform Component Library." ∧
    getSimulationResponse "Tech stack?" =
      "Core competencies include Python (AI), React, Node.js, and Transformer models (BERT, RoBERTa)." ∧
    getSimulationResponse "your EMAIL address" =
      "You can reach Anubhav at " ++ RESUME_DATA.email ++ "." ∧
    getSimulationResponse "hello there" = "Greetings. Accessing local database..." ∧
    getSimulationResponse "who are you" =
      "I am currently running in offline mode. I can answer basic questions about projects and skills, but live generative capabilities are disabled." :=
  ⟨(claim9_keyword_priority "project skill tech contact email hello hi").1 (by decide),
   (claim9_keyword_priority "Tech stack?").2.1 (by decide) (by decide),
   (claim9_keyword_priority "your EMAIL address").2.2.1 (by decide) (by decide) (by decide),
   (claim9_keyword_priority "hello there").2.2.2.1
     (by decide) (by decide) (by decide) (by decide),
   (claim9_keyword_priority "who are you").2.2.2.2
     (by decide) (by decide) (by decide) (by decide)⟩

/-- C10: when the typed query is empty or whitespace-only, `handleSearch`
leaves the stored `searchResults` collections unchanged (they retain the
results of the last non-empty query); only the query string and the
active view are updated (the view drops from SEARCH back to PROFILE and
is untouched otherwise). -/
theorem claim10_empty_query_frame (s : AppState) (q : String)
    (h : trimStr q = "") :
    (handleSearch s q).searchResults = s.searchResults ∧
    (handleSearch s q).searchQuery = q ∧
    (handleSearch s q).activeView =
      (if s.activeView = ViewState.SEARCH then ViewState.PROFILE else s.activeView) := by
  by_cases hv : s.activeView = ViewState.SEARCH <;>
    simp [handleSearch, h, hv]

/-- Witness for C10: clearing to a whitespace-only query on a SEARCH-view
state that holds non-empty stored results keeps those results. -/
theorem claim10_empty_query_frame_witness :
    trimStr "  " = "" ∧
    (handleSearch (⟨ViewState.SEARCH, "java", ⟨[], [], searchSkills "java"⟩⟩ : AppState)
      "  ").searchResults = (⟨[], [], searchSkills "java"⟩ : SearchResults) ∧
    (handleSearch (⟨ViewState.SEARCH, "java", ⟨[], [], searchSkills "java"⟩⟩ : AppState)
      "  ").searchQuery = "  " ∧
    (handleSearch (⟨ViewState.SEARCH, "java", ⟨[], [], searchSkills "java"⟩⟩ : AppState)
      "  ").activeView =
      (if (ViewState.SEARCH : ViewState) = ViewState.SEARCH then ViewState.PROFILE
       else ViewState.SEARCH) := by
  have h := claim10_empty_query_frame
    ⟨ViewState.SEARCH, "java", ⟨[], [], searchSkills "java"⟩⟩ "  " (by decide)
  exact ⟨by decide, h.1, h.2.1, h.2.2⟩
